import Mathlib

/-!
Shallow embedding of the `cam` command-line application orchestrator
(`src/cam/main.cpp`): option-outcome handling (`CamApp::parseOptions`),
startup (`CamApp::init`, `main`), the run plan (`CamApp::run`), the
outstanding-operation counter (`loopUsers_`, an `std::atomic_uint`) with its
completion handler (`CamApp::captureDone`), hotplug callbacks, the camera
display-name derivation (`CamApp::cameraName`), and the process-wide
singleton (`CamApp::app_` / `CamApp::instance`).

External collaborators (OptionsParser, CameraManager, CameraSession) are
black boxes per the design document: their observable results are inputs
(parse validity, start return codes, the camera list), and their side
effects are recorded as abstract output items.
-/

namespace Cam

/-! ### Constants (errno values on Linux, as used by main.cpp) -/

def EINTR : Int := 4
def ENODEV : Int := 19
def EINVAL : Int := 22
def EXIT_FAILURE : Int := 1

/-- The counter `loopUsers_` is an `std::atomic_uint`: values live modulo
`2 ^ 32`. -/
def UINT_MOD : Nat := 2 ^ 32

/-! ### Camera properties and display names (`CamApp::cameraName`) -/

/-- The camera `Location` property has exactly these three values. -/
inductive CameraLocation where
  | front
  | back
  | external

/-- The slice of a camera's property list read by `CamApp::cameraName`,
plus its id. -/
structure Camera where
  location : Option CameraLocation
  model : Option String
  id : String

/-- Embedding of `CamApp::cameraName`: build the display name from location, model and id.
The model is used only when `addModel` survives the location switch, and it
replaces the location text; the id in parentheses is always appended. -/
def cameraName (camera : Camera) : String :=
  let start : Bool × String :=
    match camera.location with
    | some .front => (false, "Internal front camera ")
    | some .back => (false, "Internal back camera ")
    | some .external => (true, "External camera ")
    | none => (true, "")
  let addModel := start.1
  let name := start.2
  let name :=
    if addModel then
      match camera.model with
      | some m => "'" ++ m ++ "' "
      | none => name
    else name
  name ++ "(" ++ camera.id ++ ")"

/-! ### Outputs

Lines written to standard output.  Text produced by external collaborators
(usage text, strerror-bearing messages, metadata dumps) is abstract. -/

inductive Output where
  /-- usage text printed by `parser.usage()` -/
  | usage
  /-- a literal line printed by main.cpp -/
  | line (s : String)
  /-- the line "Failed to start camera manager: " followed by
  `strerror(-ret)` -/
  | cmStartError (ret : Int)
  /-- listing printed by `session->listControls()` -/
  | controlsListing
  /-- listing printed by `session->listProperties()` -/
  | propertiesListing
  /-- listing printed by `session->infoConfiguration()` -/
  | infoListing
deriving DecidableEq

/-! ### Option set

`OptionsParser::Options` is a black box; main.cpp only queries `valid()`,
`empty()` and `isSet(...)` for the twelve declared options.  An `Options`
value records the presence of each option; parse validity is a separate
input since an invalid parse result answers no further queries. -/

structure Options where
  camera : Bool
  capture : Bool
  file : Bool
  stream : Bool
  help : Bool
  info : Bool
  list : Bool
  listControls : Bool
  listProperties : Bool
  monitor : Bool
  strictFormats : Bool
  metadata : Bool

/-- Truth of `options_.empty()`: no option was given on the command line. -/
def Options.allAbsent (o : Options) : Bool :=
  !o.camera && !o.capture && !o.file && !o.stream && !o.help && !o.info &&
  !o.list && !o.listControls && !o.listProperties && !o.monitor &&
  !o.strictFormats && !o.metadata

/-- Embedding of `CamApp::parseOptions`: returns the status and the lines
printed.
`valid` is the black-box outcome of `parser.parse(argc, argv).valid()`. -/
def parseOptions (valid : Bool) (o : Options) : Int × List Output :=
  if !valid then (-EINVAL, [])
  else if o.allAbsent || o.help then
    (if o.allAbsent then -EINVAL else -EINTR, [.usage])
  else (0, [])

/-! ### CamApp::init / main -/

/-- Black-box inputs consumed before the run plan. -/
structure InitEnv where
  valid : Bool
  /-- return value of `cm_->start()`: 0 on success -/
  cmStartRet : Int

/-- Embedding of `CamApp::init`: parse options, then start the camera
manager. -/
def init (env : InitEnv) (o : Options) : Int × List Output :=
  let pr := parseOptions env.valid o
  if pr.1 < 0 then pr
  else if env.cmStartRet ≠ 0 then
    (env.cmStartRet, pr.2 ++ [.cmStartError env.cmStartRet])
  else (0, pr.2)

/-! ### The event loop and the outstanding-operation counter -/

/-- State of the event loop together with the `loopUsers_` counter.
`loopUsers` holds the value of the `std::atomic_uint` (always `< UINT_MOD`);
`exited` records whether `EventLoop::exit` has been called for the current
`exec`, and `exitCode` the code it was given. -/
structure LoopState where
  loopUsers : Nat
  exited : Bool
  exitCode : Int

def initLoopState (users : Nat) : LoopState :=
  { loopUsers := users, exited := false, exitCode := 0 }

/-- Events delivered while the loop runs: a capture-completion signal from
the session, the SIGINT handler, and hotplug notifications. -/
inductive Event where
  | captureDone
  | sigint
  | cameraAdded (id : String)
  | cameraRemoved (id : String)

/-- Embedding of `CamApp::captureDone`:
`if (--loopUsers_ == 0) EventLoop::instance()->exit(0);`.
The pre-decrement wraps modulo `2 ^ 32` (`std::atomic_uint`). -/
def captureDoneStep (s : LoopState) : LoopState :=
  let u := (s.loopUsers + (UINT_MOD - 1)) % UINT_MOD
  if u = 0 then { loopUsers := u, exited := true, exitCode := 0 }
  else { s with loopUsers := u }

/-- Embedding of `signalHandler` / `CamApp::quit`: print "Exiting" and call
`loop_.exit()` (default code 0); it touches no other state. -/
def sigintStep (s : LoopState) : LoopState :=
  { s with exited := true, exitCode := 0 }

/-- Modelled from the spec: the Cooperative Event Loop (`event_loop.h` and
`event_loop.cpp`, which are not under src/) dispatches one callback per
delivered event on the one orchestration thread until an exit request is
posted; after that `exec` returns and no further callback is dispatched. -/
def stepEvent (s : LoopState) (e : Event) : LoopState × List Output :=
  if s.exited then (s, [])
  else
    match e with
    | .captureDone => (captureDoneStep s, [])
    | .sigint => (sigintStep s, [.line "Exiting"])
    | .cameraAdded i => (s, [.line ("Camera Added: " ++ i)])
    | .cameraRemoved i => (s, [.line ("Camera Removed: " ++ i)])

/-- Modelled from the spec: `EventLoop::exec` blocks, dispatching the
delivered events in order; the trace argument is the sequence of events
delivered while it runs. -/
def runLoop (s : LoopState) : List Event → LoopState × List Output
  | [] => (s, [])
  | e :: es =>
    let r1 := stepEvent s e
    let r2 := runLoop r1.1 es
    (r2.1, r1.2 ++ r2.2)

/-- Number of capture-completion events in a trace. -/
def countCD : List Event → Nat
  | [] => 0
  | .captureDone :: es => countCD es + 1
  | _ :: es => countCD es

/-- Whether a SIGINT delivery occurs in a trace. -/
def hasSigint : List Event → Bool
  | [] => false
  | .sigint :: _ => true
  | _ :: es => hasSigint es

/-! ### CamApp::run -/

/-- Black-box inputs consumed by the run plan. -/
structure RunEnv where
  /-- the list returned by `cm_->cameras()` -/
  cameras : List Camera
  /-- result of `session->isValid()` after constructing the CameraSession -/
  sessionValid : Bool
  /-- the id returned by `session->camera()->id()` -/
  sessionCameraId : String
  /-- return value of `session->start(options_)`: 0 on success -/
  sessionStartRet : Int

/-- Step 1 of the plan: the listing printed for `--list`. -/
def listOutput (cameras : List Camera) : List Output :=
  Output.line "Available cameras:" ::
    (List.enumFrom 1 cameras).map
      (fun p => Output.line (toString p.1 ++ ": " ++ cameraName p.2))

/-- Observable outcome of one `CamApp::run` call. -/
structure RunResult where
  /-- the value `run` returns -/
  ret : Int
  output : List Output
  /-- value of `loopUsers_` after plan steps 4 and 5 -/
  loopUsers : Nat
  /-- whether `loop_.exec()` was called -/
  loopEntered : Bool
  /-- loop/counter state when control is past the `exec` call -/
  finalLoop : LoopState
  /-- number of `session->stop()` calls -/
  sessionStops : Nat
  /-- whether `session->captureDone` was connected to `CamApp::captureDone` -/
  captureConnected : Bool
  /-- whether the hotplug callbacks were connected -/
  hotplugConnected : Bool

/-- Embedding of `CamApp::run`: the fixed plan of main.cpp lines 173-257.  `events` is
the trace delivered while `loop_.exec()` runs (unused unless the loop is
entered). -/
def run (env : RunEnv) (o : Options) (events : List Event) : RunResult :=
  /- 1. List all cameras. -/
  let out1 : List Output := if o.list = true then listOutput env.cameras else []
  /- 2. Create the camera session. -/
  if o.camera = true ∧ env.sessionValid = false then
    { ret := -EINVAL,
      output := out1 ++ [.line "Failed to create camera session"],
      loopUsers := 0, loopEntered := false, finalLoop := initLoopState 0,
      sessionStops := 0, captureConnected := false, hotplugConnected := false }
  else
    let out2 := out1 ++
      (if o.camera = true
       then [Output.line ("Using camera " ++ env.sessionCameraId)] else [])
    /- 3. Print camera information. -/
    if (o.listControls = true ∨ o.listProperties = true ∨ o.info = true) ∧
        o.camera = false then
      { ret := -EINVAL,
        output := out2 ++ [.line "Cannot print camera information without a camera"],
        loopUsers := 0, loopEntered := false, finalLoop := initLoopState 0,
        sessionStops := 0, captureConnected := o.camera,
        hotplugConnected := false }
    else
      let out3 := out2 ++
        (if o.listControls = true then [Output.controlsListing] else []) ++
        (if o.listProperties = true then [Output.propertiesListing] else []) ++
        (if o.info = true then [Output.infoListing] else [])
      /- 4. Start capture. -/
      if o.capture = true ∧ o.camera = false then
        { ret := -ENODEV,
          output := out3 ++ [.line "Can't capture without a camera"],
          loopUsers := 0, loopEntered := false, finalLoop := initLoopState 0,
          sessionStops := 0, captureConnected := o.camera,
          hotplugConnected := false }
      else if o.capture = true ∧ env.sessionStartRet ≠ 0 then
        { ret := env.sessionStartRet,
          output := out3 ++ [.line "Failed to start camera session"],
          loopUsers := 0, loopEntered := false, finalLoop := initLoopState 0,
          sessionStops := 0, captureConnected := o.camera,
          hotplugConnected := false }
      else
        let users4 : Nat := if o.capture = true then 1 else 0
        /- 5. Enable hotplug monitoring. -/
        let out5 : List Output :=
          if o.monitor = true then
            [Output.line "Monitoring new hotplug and unplug events",
             Output.line "Press Ctrl-C to interrupt"]
          else []
        let users : Nat := users4 + (if o.monitor = true then 1 else 0)
        let lp :=
          if users ≠ 0 then runLoop (initLoopState users) events
          else (initLoopState users, [])
        /- 6. Stop capture. -/
        { ret := 0,
          output := out3 ++ out5 ++ lp.2,
          loopUsers := users,
          loopEntered := decide (users ≠ 0),
          finalLoop := lp.1,
          sessionStops := if o.capture = true then 1 else 0,
          captureConnected := o.camera,
          hotplugConnected := o.monitor }

/-! ### main -/

/-- All black-box inputs of one process run. -/
structure MainEnv where
  valid : Bool
  cmStartRet : Int
  runEnv : RunEnv

/-- Embedding of `main`: init, then (via `exec`) run; map the result to the
process
exit status.  Returns the exit status and everything printed. -/
def mainFn (env : MainEnv) (o : Options) (events : List Event) :
    Int × List Output :=
  let ir := init { valid := env.valid, cmStartRet := env.cmStartRet } o
  if ir.1 ≠ 0 then
    (if ir.1 = -EINTR then 0 else EXIT_FAILURE, ir.2)
  else
    let r := run env.runEnv o events
    (if r.ret ≠ 0 then EXIT_FAILURE else 0, ir.2 ++ r.output)

/-! ### The CamApp singleton (`CamApp::app_`) -/

/-- Embedding of `CamApp::CamApp()`: `CamApp::app_ = this;` — the
constructor
unconditionally publishes the new object (identified here by a number). -/
def constructApp (_s : Option Nat) (a : Nat) : Option Nat :=
  some a

/-- Embedding of `CamApp::instance()`: return `CamApp::app_`. -/
def instanceApp (s : Option Nat) : Option Nat :=
  s

/-- The object whose `quit()` the signal handler invokes:
`CamApp::instance()->quit()`. -/
def sigintTarget (s : Option Nat) : Option Nat :=
  instanceApp s

/-! ### Concrete sample inputs shared by witnesses -/

def sampleRunEnv : RunEnv :=
  { cameras := [], sessionValid := true, sessionCameraId := "cam0",
    sessionStartRet := 0 }

def sampleMainEnv : MainEnv :=
  { valid := true, cmStartRet := 0, runEnv := sampleRunEnv }

def noOpts : Options :=
  { camera := false, capture := false, file := false, stream := false,
    help := false, info := false, list := false, listControls := false,
    listProperties := false, monitor := false, strictFormats := false,
    metadata := false }

def helpOpts : Options := { noOpts with help := true }
def monitorOpts : Options := { noOpts with monitor := true }
def listOpts : Options := { noOpts with list := true }
def capMonOpts : Options :=
  { noOpts with camera := true, capture := true, monitor := true }
def capInfoOpts : Options := { noOpts with capture := true, info := true }

def infoOpts : Options := { noOpts with info := true }
def capOpts : Options := { noOpts with capture := true }

def cmFailEnv : MainEnv :=
  { valid := true, cmStartRet := -ENODEV, runEnv := sampleRunEnv }

def cmEintrEnv : MainEnv :=
  { valid := true, cmStartRet := -EINTR, runEnv := sampleRunEnv }

/-! ### Listing scenario inputs -/

def listScenarioEnv : RunEnv :=
  { cameras := [{ location := none, model := some "SensorA", id := "cam0" },
                { location := some CameraLocation.back, model := none,
                  id := "cam1" }],
    sessionValid := true, sessionCameraId := "cam0", sessionStartRet := 0 }

def listScenarioMainEnv : MainEnv :=
  { valid := true, cmStartRet := 0, runEnv := listScenarioEnv }

end Cam

namespace Cam

/-! ### Helper lemmas about the loop state machine -/

theorem UINT_MOD_eq : UINT_MOD = 4294967296 := by norm_num [UINT_MOD]

theorem runLoop_cons (s : LoopState) (e : Event) (es : List Event) :
    (runLoop s (e :: es)).1 = (runLoop (stepEvent s e).1 es).1 := rfl

/-- Once `exit` has been posted, the loop dispatches nothing further. -/
theorem runLoop_of_exited (es : List Event) (s : LoopState)
    (h : s.exited = true) : runLoop s es = (s, []) := by
  induction es with
  | nil => rfl
  | cons e es ih => simp [runLoop, stepEvent, h, ih]

/-- Wrapped pre-decrement of the counter, in the normal (positive) range. -/
theorem dec_in_range (k : Nat) (hk : 0 < k) (hlt : k < UINT_MOD) :
    (k + (UINT_MOD - 1)) % UINT_MOD = k - 1 := by
  rw [UINT_MOD_eq] at *
  omega

/-- Wrapped pre-decrement of the counter at zero. -/
theorem dec_at_zero : (0 + (UINT_MOD - 1)) % UINT_MOD = UINT_MOD - 1 := by
  rw [UINT_MOD_eq]

theorem countCD_append (p t : List Event) :
    countCD (p ++ t) = countCD p + countCD t := by
  induction p with
  | nil => simp [countCD]
  | cons e p ih =>
    cases e with
    | captureDone =>
      rw [List.cons_append]
      rw [show countCD (Event.captureDone :: (p ++ t)) =
            countCD (p ++ t) + 1 from rfl]
      rw [show countCD (Event.captureDone :: p) = countCD p + 1 from rfl]
      omega
    | sigint => simp [countCD, ih]
    | cameraAdded i => simp [countCD, ih]
    | cameraRemoved i => simp [countCD, ih]

/-- Characterisation of one `exec` call: starting unexited with counter
`n < 2^32` and at most `n` completion events in the trace, the loop (i)
exits exactly when a SIGINT is delivered or the `n`-th completion decrements
the counter to zero, (ii) if it never exits, the counter is exactly `n`
minus the number of completions, (iii) the counter never exceeds `n` (no
wrap below zero), and (iv) any exit carries code 0. -/
theorem runLoop_chars (es : List Event) (s : LoopState)
    (hex : s.exited = false) (hlt : s.loopUsers < UINT_MOD)
    (hcd : countCD es ≤ s.loopUsers) :
    ((runLoop s es).1.exited = true ↔
      (hasSigint es = true ∨ (0 < s.loopUsers ∧ countCD es = s.loopUsers))) ∧
    ((runLoop s es).1.exited = false →
      (runLoop s es).1.loopUsers = s.loopUsers - countCD es) ∧
    (runLoop s es).1.loopUsers ≤ s.loopUsers ∧
    ((runLoop s es).1.exited = true → (runLoop s es).1.exitCode = 0) := by
  induction es generalizing s with
  | nil =>
    simp only [runLoop, hex]
    simp [countCD, hasSigint]
    omega
  | cons e es ih =>
    rw [runLoop_cons]
    cases e with
    | captureDone =>
      have hstep : (stepEvent s .captureDone).1 = captureDoneStep s := by
        simp [stepEvent, hex]
      have hcdc : countCD (Event.captureDone :: es) = countCD es + 1 := by
        simp [countCD]
      have hsg : hasSigint (Event.captureDone :: es) = hasSigint es := by
        simp [hasSigint]
      rw [hstep, hcdc, hsg]
      rw [hcdc] at hcd
      have hpos : 0 < s.loopUsers := by omega
      have hu : (s.loopUsers + (UINT_MOD - 1)) % UINT_MOD = s.loopUsers - 1 :=
        dec_in_range s.loopUsers hpos hlt
      by_cases h1 : s.loopUsers = 1
      · have hu1 : (1 + (UINT_MOD - 1)) % UINT_MOD = 0 := by
          norm_num [UINT_MOD_eq]
        have hs1 : captureDoneStep s =
            { loopUsers := 0, exited := true, exitCode := 0 } := by
          simp [captureDoneStep, h1, hu1]
        rw [hs1, runLoop_of_exited es _ rfl]
        refine ⟨?_, ?_, ?_, fun _ => rfl⟩
        · simp
          exact Or.inr ⟨by omega, by omega⟩
        · intro h
          simp at h
        · exact Nat.zero_le _
      · have hz2 : s.loopUsers - 1 ≠ 0 := by omega
        have hs1 : captureDoneStep s =
            { s with loopUsers := s.loopUsers - 1 } := by
          simp [captureDoneStep, hu, hz2]
        rw [hs1]
        obtain ⟨i1, i2, i3, i4⟩ :=
          ih { s with loopUsers := s.loopUsers - 1 } hex (by simp; omega)
            (by simp; omega)
        simp only at i1 i2 i3
        refine ⟨?_, ?_, ?_, i4⟩
        · rw [i1]
          have hiff : (0 < s.loopUsers - 1 ∧ countCD es = s.loopUsers - 1) ↔
              (0 < s.loopUsers ∧ countCD es + 1 = s.loopUsers) := by
            omega
          rw [hiff]
        · intro hne
          rw [i2 hne]
          omega
        · omega
    | sigint =>
      have hstep : (stepEvent s .sigint).1 = sigintStep s := by
        simp [stepEvent, hex]
      rw [hstep]
      rw [runLoop_of_exited _ _ rfl]
      simp [sigintStep, hasSigint]
    | cameraAdded i =>
      have hstep : (stepEvent s (.cameraAdded i)).1 = s := by
        simp [stepEvent, hex]
      rw [hstep]
      have ih' := ih s hex hlt (by simpa [countCD] using hcd)
      simpa [countCD, hasSigint] using ih'
    | cameraRemoved i =>
      have hstep : (stepEvent s (.cameraRemoved i)).1 = s := by
        simp [stepEvent, hex]
      rw [hstep]
      have ih' := ih s hex hlt (by simpa [countCD] using hcd)
      simpa [countCD, hasSigint] using ih'

end Cam

namespace Cam

/-! ### Singleton helper -/

theorem foldl_constructApp (as : List Nat) (a : Nat) :
    List.foldl constructApp (some a) as = some (as.getLast?.getD a) := by
  induction as generalizing a with
  | nil => rfl
  | cons b bs ih =>
    rw [List.foldl_cons, List.getLast?_cons]
    simp only [constructApp, ih, Option.getD_some]

/-! ### Claim theorems -/

/-- Claim C10: the CamApp constructor unconditionally publishes the new object as
the process-wide singleton, so `CamApp::instance()` returns the most
recently constructed CamApp, null before any construction, and the signal
handler's `quit()` targets exactly that instance. -/
theorem C10_singleton_latest (as : List Nat) :
    instanceApp (List.foldl constructApp none as) = as.getLast? ∧
    instanceApp none = none ∧
    sigintTarget (List.foldl constructApp none as) = as.getLast? := by
  refine ⟨?_, rfl, ?_⟩ <;>
  · cases as with
    | nil => rfl
    | cons a bs =>
      show List.foldl constructApp (constructApp none a) bs = _
      rw [constructApp, foldl_constructApp, List.getLast?_cons]

/-- Claim C9: `loopUsers_` is a fixed-width (32-bit) unsigned counter: a
`captureDone` arriving with the counter already 0 wraps it to `2^32 - 1`
instead of going negative, does not request loop exit (the decrement result
is not 0), and leaves the counter nonzero. -/
theorem C9_spurious_completion_wraps (s : LoopState)
    (h0 : s.loopUsers = 0) (hex : s.exited = false) :
    (stepEvent s .captureDone).1.loopUsers = UINT_MOD - 1 ∧
    UINT_MOD - 1 = 2 ^ 32 - 1 ∧
    (stepEvent s .captureDone).1.loopUsers ≠ 0 ∧
    (stepEvent s .captureDone).1.exited = false := by
  have hdz : (0 + (UINT_MOD - 1)) % UINT_MOD = UINT_MOD - 1 := by
    norm_num [UINT_MOD_eq]
  have hne : UINT_MOD - 1 ≠ 0 := by rw [UINT_MOD_eq]; omega
  have hstep : (stepEvent s .captureDone).1 =
      { s with loopUsers := UINT_MOD - 1 } := by
    simp [stepEvent, hex, captureDoneStep, h0, hdz, hne]
  rw [hstep]
  exact ⟨rfl, rfl, hne, hex⟩

theorem C9_spurious_completion_wraps_witness :
    (initLoopState 0).loopUsers = 0 ∧ (initLoopState 0).exited = false ∧
    ((stepEvent (initLoopState 0) .captureDone).1.loopUsers = UINT_MOD - 1 ∧
     UINT_MOD - 1 = 2 ^ 32 - 1 ∧
     (stepEvent (initLoopState 0) .captureDone).1.loopUsers ≠ 0 ∧
     (stepEvent (initLoopState 0) .captureDone).1.exited = false) :=
  ⟨rfl, rfl, C9_spurious_completion_wraps (initLoopState 0) rfl rfl⟩

/-- Claim C3: a help request and an empty argument list both print the usage
text (the same printed content), but help maps to process exit status 0
while the empty argument list maps to the non-zero EXIT_FAILURE. -/
theorem C3_help_vs_empty (envH envE : MainEnv) (oh oe : Options)
    (ev1 ev2 : List Event)
    (hvH : envH.valid = true) (hvE : envE.valid = true)
    (hh : oh.help = true) (he : oe.allAbsent = true) :
    (parseOptions true oh).2 = [Output.usage] ∧
    (parseOptions true oe).2 = [Output.usage] ∧
    (parseOptions true oh).2 = (parseOptions true oe).2 ∧
    (mainFn envH oh ev1).1 = 0 ∧
    (mainFn envE oe ev2).1 = EXIT_FAILURE ∧
    EXIT_FAILURE ≠ 0 := by
  have hoh : oh.allAbsent = false := by
    simp [Options.allAbsent, hh]
  have hpH : parseOptions true oh = (-EINTR, [Output.usage]) := by
    simp [parseOptions, hh, hoh]
  have hpE : parseOptions true oe = (-EINVAL, [Output.usage]) := by
    simp [parseOptions, he]
  refine ⟨by rw [hpH], by rw [hpE], by rw [hpH, hpE], ?_, ?_, by
    norm_num [EXIT_FAILURE]⟩
  · simp only [mainFn, init, hvH, hpH]
    norm_num [EINTR]
  · simp only [mainFn, init, hvE, hpE]
    norm_num [EINVAL, EINTR]

theorem C3_help_vs_empty_witness :
    sampleMainEnv.valid = true ∧ helpOpts.help = true ∧
    noOpts.allAbsent = true ∧
    ((parseOptions true helpOpts).2 = [Output.usage] ∧
     (parseOptions true noOpts).2 = [Output.usage] ∧
     (parseOptions true helpOpts).2 = (parseOptions true noOpts).2 ∧
     (mainFn sampleMainEnv helpOpts []).1 = 0 ∧
     (mainFn sampleMainEnv noOpts []).1 = EXIT_FAILURE ∧
     EXIT_FAILURE ≠ 0) :=
  ⟨rfl, rfl, rfl,
   C3_help_vs_empty sampleMainEnv sampleMainEnv helpOpts noOpts [] []
     rfl rfl rfl rfl⟩

end Cam

namespace Cam

/-! ### Helper lemmas about the run plan -/

theorem run_basic (env : RunEnv) (o : Options) (events : List Event) :
    ((run env o events).loopEntered = true ↔ 0 < (run env o events).loopUsers) ∧
    (run env o events).loopUsers ≤ 2 ∧
    ((run env o events).loopEntered = true → (run env o events).ret = 0) ∧
    ((run env o events).loopEntered = true →
      (run env o events).finalLoop =
        (runLoop (initLoopState (run env o events).loopUsers) events).1) := by
  by_cases h2 : o.camera = true ∧ env.sessionValid = false
  · unfold run
    rw [if_pos h2]
    simp
  by_cases h3 : (o.listControls = true ∨ o.listProperties = true ∨
      o.info = true) ∧ o.camera = false
  · unfold run
    rw [if_neg h2, if_pos h3]
    simp
  by_cases h4 : o.capture = true ∧ o.camera = false
  · unfold run
    rw [if_neg h2, if_neg h3, if_pos h4]
    simp
  by_cases h5 : o.capture = true ∧ ¬env.sessionStartRet = 0
  · unfold run
    rw [if_neg h2, if_neg h3, if_neg h4, if_pos h5]
    simp
  unfold run
  rw [if_neg h2, if_neg h3, if_neg h4, if_neg h5]
  refine ⟨?_, ?_, ?_, ?_⟩
  · simp only [decide_eq_true_eq]
    omega
  · simp only
    have hc1 : (if o.capture = true then (1 : Nat) else 0) ≤ 1 := by
      split <;> omega
    have hc2 : (if o.monitor = true then (1 : Nat) else 0) ≤ 1 := by
      split <;> omega
    omega
  · intro _
    rfl
  · intro h
    simp only [decide_eq_true_eq] at h
    simp [h]

theorem hasSigint_append (p t : List Event) :
    hasSigint (p ++ t) = (hasSigint p || hasSigint t) := by
  induction p with
  | nil => simp [hasSigint]
  | cons e p ih =>
    cases e with
    | captureDone => simp [hasSigint, ih]
    | sigint => simp [hasSigint]
    | cameraAdded i => simp [hasSigint, ih]
    | cameraRemoved i => simp [hasSigint, ih]

/-- A delivered SIGINT forces the loop to exit, from any state. -/
theorem runLoop_sigint_exits (es : List Event) (s : LoopState)
    (hsig : hasSigint es = true) :
    (runLoop s es).1.exited = true := by
  induction es generalizing s with
  | nil => simp [hasSigint] at hsig
  | cons e es ih =>
    rw [runLoop_cons]
    by_cases hex : s.exited = true
    · have hstep : (stepEvent s e).1 = s := by simp [stepEvent, hex]
      rw [hstep, runLoop_of_exited es s hex]
      exact hex
    · replace hex : s.exited = false := by
        cases h : s.exited
        · rfl
        · exact absurd h hex
      cases e with
      | captureDone =>
        have hstep : (stepEvent s .captureDone).1 = captureDoneStep s := by
          simp [stepEvent, hex]
        rw [hstep]
        exact ih _ (by simpa [hasSigint] using hsig)
      | sigint =>
        have hstep : (stepEvent s .sigint).1 = sigintStep s := by
          simp [stepEvent, hex]
        rw [hstep, runLoop_of_exited es _ rfl]
        rfl
      | cameraAdded i =>
        have hstep : (stepEvent s (.cameraAdded i)).1 = s := by
          simp [stepEvent, hex]
        rw [hstep]
        exact ih _ (by simpa [hasSigint] using hsig)
      | cameraRemoved i =>
        have hstep : (stepEvent s (.cameraRemoved i)).1 = s := by
          simp [stepEvent, hex]
        rw [hstep]
        exact ih _ (by simpa [hasSigint] using hsig)

/-- Claim C1: with the completions bounded by the started activities, the
counter stays between 0 and its initial value at every point of the trace
(never wrapping below zero), the loop is entered iff the counter is
positive after plan steps 4-5, and `exec` returns exactly when the counter
is decremented from 1 to 0 (exit code 0) or a SIGINT exit is posted. -/
theorem C1_counter_invariant (env : RunEnv) (o : Options)
    (events : List Event)
    (hcd : countCD events ≤ (run env o events).loopUsers) :
    ((run env o events).loopEntered = true ↔
      0 < (run env o events).loopUsers) ∧
    ((run env o events).loopEntered = true →
      (run env o events).finalLoop =
        (runLoop (initLoopState (run env o events).loopUsers) events).1) ∧
    (∀ p, p <+: events →
      (runLoop (initLoopState (run env o events).loopUsers) p).1.loopUsers ≤
          (run env o events).loopUsers ∧
      ((runLoop (initLoopState (run env o events).loopUsers) p).1.exited =
          false →
        (runLoop (initLoopState (run env o events).loopUsers) p).1.loopUsers =
          (run env o events).loopUsers - countCD p)) ∧
    ((runLoop (initLoopState (run env o events).loopUsers) events).1.exited =
        true ↔
      (hasSigint events = true ∨
        (0 < (run env o events).loopUsers ∧
          countCD events = (run env o events).loopUsers))) ∧
    ((runLoop (initLoopState (run env o events).loopUsers) events).1.exited =
        true →
      (runLoop (initLoopState (run env o events).loopUsers) events).1.exitCode
        = 0) := by
  obtain ⟨hb1, hb2, _, hb4⟩ := run_basic env o events
  have hlt : (run env o events).loopUsers < UINT_MOD := by
    rw [UINT_MOD_eq]; omega
  obtain ⟨hc1, _, _, hc4⟩ :=
    runLoop_chars events (initLoopState (run env o events).loopUsers) rfl hlt
      hcd
  refine ⟨hb1, hb4, ?_, hc1, hc4⟩
  intro p hp
  obtain ⟨t, ht⟩ := hp
  have hcp : countCD p ≤ countCD events := by
    rw [← ht, countCD_append]
    omega
  obtain ⟨_, hp2, hp3, _⟩ :=
    runLoop_chars p (initLoopState (run env o events).loopUsers) rfl hlt
      (le_trans hcp hcd)
  exact ⟨hp3, hp2⟩

theorem C1_counter_invariant_witness :
    countCD [Event.captureDone, Event.sigint] ≤
        (run sampleRunEnv capMonOpts [Event.captureDone, Event.sigint]).loopUsers ∧
    ((run sampleRunEnv capMonOpts [Event.captureDone, Event.sigint]).loopEntered
        = true ↔
      0 < (run sampleRunEnv capMonOpts
            [Event.captureDone, Event.sigint]).loopUsers) :=
  ⟨by decide,
   (C1_counter_invariant sampleRunEnv capMonOpts
      [Event.captureDone, Event.sigint] (by decide)).1⟩

/-- Claim C2: whenever the interrupt handler fires during the loop (a SIGINT
exit is posted), the loop exits, `run` returns 0 regardless of how the
loop terminated, and `main` maps that to process exit status 0. -/
theorem C2_sigint_exit_zero (env : MainEnv) (o : Options)
    (events : List Event)
    (hinit : (init { valid := env.valid, cmStartRet := env.cmStartRet } o).1
        = 0)
    (hloop : (run env.runEnv o events).loopEntered = true)
    (hsig : hasSigint events = true) :
    (run env.runEnv o events).finalLoop.exited = true ∧
    (run env.runEnv o events).ret = 0 ∧
    (mainFn env o events).1 = 0 := by
  obtain ⟨_, _, hb3, hb4⟩ := run_basic env.runEnv o events
  have hret : (run env.runEnv o events).ret = 0 := hb3 hloop
  refine ⟨?_, hret, ?_⟩
  · rw [hb4 hloop]
    exact runLoop_sigint_exits events _ hsig
  · simp only [mainFn, hinit]
    norm_num [hret]

theorem C2_sigint_exit_zero_witness :
    (init { valid := sampleMainEnv.valid,
            cmStartRet := sampleMainEnv.cmStartRet } monitorOpts).1 = 0 ∧
    (run sampleMainEnv.runEnv monitorOpts [Event.sigint]).loopEntered = true ∧
    hasSigint [Event.sigint] = true ∧
    (mainFn sampleMainEnv monitorOpts [Event.sigint]).1 = 0 :=
  ⟨by decide, by decide, by decide,
   (C2_sigint_exit_zero sampleMainEnv monitorOpts [Event.sigint] (by decide)
      (by decide) (by decide)).2.2⟩

/-- Claim C6: if capture was requested and the session was constructed and
started successfully, then after the loop terminates — however it
terminated — `session->stop()` is called exactly once and `run` returns
0. -/
theorem C6_stop_called_once (env : RunEnv) (o : Options)
    (events : List Event)
    (hcap : o.capture = true) (hcam : o.camera = true)
    (hsv : env.sessionValid = true) (hstart : env.sessionStartRet = 0)
    (_hterm : (run env o events).finalLoop.exited = true) :
    (run env o events).sessionStops = 1 ∧
    (run env o events).loopEntered = true ∧
    (run env o events).ret = 0 := by
  have h2 : ¬(o.camera = true ∧ env.sessionValid = false) := by
    simp [hsv]
  have h3 : ¬((o.listControls = true ∨ o.listProperties = true ∨
      o.info = true) ∧ o.camera = false) := by
    simp [hcam]
  have h4 : ¬(o.capture = true ∧ o.camera = false) := by
    simp [hcam]
  have h5 : ¬(o.capture = true ∧ ¬env.sessionStartRet = 0) := by
    simp [hstart]
  unfold run
  rw [if_neg h2, if_neg h3, if_neg h4, if_neg h5]
  refine ⟨by simp [hcap], ?_, rfl⟩
  simp only [hcap, if_true, decide_eq_true_eq]
  omega

theorem C6_stop_called_once_witness :
    capMonOpts.capture = true ∧ capMonOpts.camera = true ∧
    sampleRunEnv.sessionValid = true ∧ sampleRunEnv.sessionStartRet = 0 ∧
    (run sampleRunEnv capMonOpts [Event.sigint]).finalLoop.exited = true ∧
    ((run sampleRunEnv capMonOpts [Event.sigint]).sessionStops = 1 ∧
     (run sampleRunEnv capMonOpts [Event.sigint]).loopEntered = true ∧
     (run sampleRunEnv capMonOpts [Event.sigint]).ret = 0) :=
  ⟨rfl, rfl, rfl, rfl, by decide,
   C6_stop_called_once sampleRunEnv capMonOpts [Event.sigint] rfl rfl rfl rfl
     (by decide)⟩

end Cam

namespace Cam

/-! ### Run-branch equations -/

/-- Plan step 3 with no session: the "no camera" failure. -/
theorem run_step3_fail (env : RunEnv) (o : Options) (events : List Event)
    (hcam : o.camera = false)
    (hreq : o.listControls = true ∨ o.listProperties = true ∨
      o.info = true) :
    run env o events =
      { ret := -EINVAL,
        output := (if o.list = true then listOutput env.cameras else []) ++
          [Output.line "Cannot print camera information without a camera"],
        loopUsers := 0, loopEntered := false, finalLoop := initLoopState 0,
        sessionStops := 0, captureConnected := o.camera,
        hotplugConnected := false } := by
  have hA : ¬(o.camera = true ∧ env.sessionValid = false) := by simp [hcam]
  unfold run
  rw [if_neg hA, if_pos ⟨hreq, hcam⟩]
  simp [hcam]

/-- Plan step 4 with no session: the "no device" failure. -/
theorem run_step4_nodev (env : RunEnv) (o : Options) (events : List Event)
    (hcam : o.camera = false) (hcap : o.capture = true)
    (hlc : o.listControls = false) (hlp : o.listProperties = false)
    (hi : o.info = false) :
    run env o events =
      { ret := -ENODEV,
        output := (if o.list = true then listOutput env.cameras else []) ++
          [Output.line "Can't capture without a camera"],
        loopUsers := 0, loopEntered := false, finalLoop := initLoopState 0,
        sessionStops := 0, captureConnected := o.camera,
        hotplugConnected := false } := by
  have hA : ¬(o.camera = true ∧ env.sessionValid = false) := by simp [hcam]
  have hB : ¬((o.listControls = true ∨ o.listProperties = true ∨
      o.info = true) ∧ o.camera = false) := by
    simp [hlc, hlp, hi]
  unfold run
  rw [if_neg hA, if_neg hB, if_pos ⟨hcap, hcam⟩]
  simp [hcam, hlc, hlp, hi]

/-- Counterexample to claim C4: with capture and info both requested and no camera
selected, the run fails with the "no camera" condition (-EINVAL), not the
"no device" condition (-ENODEV) that the claim requires for every option
set requesting capture without a selected camera. -/
theorem C4_counterexample :
    capInfoOpts.capture = true ∧ capInfoOpts.camera = false ∧
    (run sampleRunEnv capInfoOpts []).ret = -EINVAL ∧
    ¬(run sampleRunEnv capInfoOpts []).ret = -ENODEV := by
  decide

/-- Claim C4 as amended: requesting list-controls, list-properties or info without
a selected camera fails immediately with the "no camera" condition
(-EINVAL); requesting capture without a selected camera, when none of the
step-3 information options is requested, fails with the distinct "no
device" condition (-ENODEV); in both cases the process exit code is the
non-zero EXIT_FAILURE, the Event Loop is never entered and no later plan
step executes. -/
theorem C4_no_camera_preconditions (em : MainEnv) (o1 o2 : Options)
    (ev1 ev2 : List Event)
    (h1cam : o1.camera = false)
    (h1req : o1.listControls = true ∨ o1.listProperties = true ∨
      o1.info = true)
    (h2cam : o2.camera = false) (h2cap : o2.capture = true)
    (h2lc : o2.listControls = false) (h2lp : o2.listProperties = false)
    (h2i : o2.info = false) (h2h : o2.help = false)
    (hv : em.valid = true) (hcm : em.cmStartRet = 0) :
    (run em.runEnv o1 ev1).ret = -EINVAL ∧
    (run em.runEnv o1 ev1).loopEntered = false ∧
    (run em.runEnv o1 ev1).sessionStops = 0 ∧
    (run em.runEnv o1 ev1).hotplugConnected = false ∧
    (∃ pre, (run em.runEnv o1 ev1).output =
      pre ++ [Output.line "Cannot print camera information without a camera"]) ∧
    (run em.runEnv o2 ev2).ret = -ENODEV ∧
    (run em.runEnv o2 ev2).loopEntered = false ∧
    (run em.runEnv o2 ev2).sessionStops = 0 ∧
    (run em.runEnv o2 ev2).hotplugConnected = false ∧
    (∃ pre, (run em.runEnv o2 ev2).output =
      pre ++ [Output.line "Can't capture without a camera"]) ∧
    (-EINVAL : Int) ≠ -ENODEV ∧
    (mainFn em o2 ev2).1 = EXIT_FAILURE ∧ EXIT_FAILURE ≠ 0 := by
  have hr1 := run_step3_fail em.runEnv o1 ev1 h1cam h1req
  have hr2 := run_step4_nodev em.runEnv o2 ev2 h2cam h2cap h2lc h2lp h2i
  have hab2 : o2.allAbsent = false := by
    simp [Options.allAbsent, h2cap]
  have hparse : parseOptions em.valid o2 = (0, []) := by
    rw [hv]
    simp [parseOptions, hab2, h2h]
  have hinit : init { valid := em.valid, cmStartRet := em.cmStartRet } o2 =
      (0, []) := by
    simp [init, hparse, hcm]
  refine ⟨by rw [hr1], by rw [hr1], by rw [hr1], by rw [hr1],
    ⟨_, by rw [hr1]⟩, by rw [hr2], by rw [hr2], by rw [hr2], by rw [hr2],
    ⟨_, by rw [hr2]⟩, by norm_num [EINVAL, ENODEV], ?_,
    by norm_num [EXIT_FAILURE]⟩
  simp only [mainFn, hinit, hr2]
  norm_num [ENODEV, EXIT_FAILURE]

theorem C4_no_camera_preconditions_witness :
    infoOpts.camera = false ∧ infoOpts.info = true ∧
    capOpts.camera = false ∧ capOpts.capture = true ∧
    sampleMainEnv.valid = true ∧ sampleMainEnv.cmStartRet = 0 ∧
    ((run sampleMainEnv.runEnv infoOpts []).ret = -EINVAL ∧
     (run sampleMainEnv.runEnv capOpts []).ret = -ENODEV ∧
     (mainFn sampleMainEnv capOpts []).1 = EXIT_FAILURE) :=
  ⟨rfl, rfl, rfl, rfl, rfl, rfl,
   (C4_no_camera_preconditions sampleMainEnv infoOpts capOpts [] [] rfl
      (Or.inr (Or.inr rfl)) rfl rfl rfl rfl rfl rfl rfl rfl).1,
   (C4_no_camera_preconditions sampleMainEnv infoOpts capOpts [] [] rfl
      (Or.inr (Or.inr rfl)) rfl rfl rfl rfl rfl rfl rfl rfl).2.2.2.2.2.1,
   (C4_no_camera_preconditions sampleMainEnv infoOpts capOpts [] [] rfl
      (Or.inr (Or.inr rfl)) rfl rfl rfl rfl rfl rfl rfl rfl).2.2.2.2.2.2.2.2.2.2.2.1⟩

/-- Counterexample to claim C5: a camera-manager start failure whose error code is
-EINTR is mapped by main to process exit status 0 (it is mistaken for the
help outcome), contradicting the claim that every device-manager start
failure yields a non-zero exit code. -/
theorem C5_counterexample :
    cmEintrEnv.cmStartRet ≠ 0 ∧
    (mainFn cmEintrEnv monitorOpts []).1 = 0 := by
  decide

/-- Claim C5 as amended: every device-manager start failure with an error code
other than -EINTR yields the non-zero EXIT_FAILURE exit status; a start
failure returning exactly -EINTR is misread as the help outcome and yields
exit status 0. -/
theorem C5_cm_start_failure (env : MainEnv) (o : Options)
    (events : List Event)
    (hv : env.valid = true) (hab : o.allAbsent = false) (hh : o.help = false)
    (hcm : env.cmStartRet ≠ 0) (hne : env.cmStartRet ≠ -EINTR) :
    (mainFn env o events).1 = EXIT_FAILURE ∧ EXIT_FAILURE ≠ 0 := by
  have hparse : parseOptions env.valid o = (0, []) := by
    rw [hv]
    simp [parseOptions, hab, hh]
  have hinit : init { valid := env.valid, cmStartRet := env.cmStartRet } o =
      (env.cmStartRet, [] ++ [Output.cmStartError env.cmStartRet]) := by
    simp [init, hparse, hcm]
  refine ⟨?_, by norm_num [EXIT_FAILURE]⟩
  simp only [mainFn, hinit]
  simp [hcm, hne]

theorem C5_cm_start_failure_witness :
    cmFailEnv.valid = true ∧ monitorOpts.allAbsent = false ∧
    monitorOpts.help = false ∧ cmFailEnv.cmStartRet ≠ 0 ∧
    cmFailEnv.cmStartRet ≠ -EINTR ∧
    ((mainFn cmFailEnv monitorOpts []).1 = EXIT_FAILURE ∧
     EXIT_FAILURE ≠ 0) :=
  ⟨rfl, by decide, rfl, by decide, by decide,
   C5_cm_start_failure cmFailEnv monitorOpts [] rfl (by decide) rfl
     (by decide) (by decide)⟩

end Cam

namespace Cam

/-- Claim C7: with the list flag, the run prints "Available cameras:" and one
line per known device (1-based index, then the derived display name) as a
prefix of its output, and this step never fails; the display name uses the
location text for front/back cameras, uses the quoted model exactly when
the location is absent or External (and a model is present), and always
ends with the device id in parentheses.  The two-device scenario produces
the lines "1: 'SensorA' (cam0)" and "2: Internal back camera (cam1)" and
the process exits 0 without starting a session. -/
theorem C7_listing (env : RunEnv) (o : Options) (events : List Event)
    (hl : o.list = true) :
    (run listScenarioEnv listOpts []).output =
      [Output.line "Available cameras:",
       Output.line "1: 'SensorA' (cam0)",
       Output.line "2: Internal back camera (cam1)"] ∧
    (run listScenarioEnv listOpts []).ret = 0 ∧
    (run listScenarioEnv listOpts []).loopEntered = false ∧
    (run listScenarioEnv listOpts []).sessionStops = 0 ∧
    (mainFn listScenarioMainEnv listOpts []).1 = 0 ∧
    (∃ rest, (run env o events).output = listOutput env.cameras ++ rest) ∧
    (∀ cs : List Camera, (listOutput cs).length = cs.length + 1) ∧
    (∀ (mdl : Option String) (i : String),
      cameraName ⟨some CameraLocation.front, mdl, i⟩ =
        "Internal front camera (" ++ i ++ ")") ∧
    (∀ (mdl : Option String) (i : String),
      cameraName ⟨some CameraLocation.back, mdl, i⟩ =
        "Internal back camera (" ++ i ++ ")") ∧
    (∀ i : String,
      cameraName ⟨some CameraLocation.external, none, i⟩ =
        "External camera (" ++ i ++ ")") ∧
    (∀ (m i : String),
      cameraName ⟨some CameraLocation.external, some m, i⟩ =
        "'" ++ m ++ "' (" ++ i ++ ")") ∧
    (∀ (m i : String),
      cameraName ⟨none, some m, i⟩ =
        "'" ++ m ++ "' (" ++ i ++ ")") ∧
    (∀ i : String,
      cameraName ⟨none, none, i⟩ =
        "(" ++ i ++ ")") ∧
    (∀ cam : Camera, ∃ p, cameraName cam = p ++ "(" ++ cam.id ++ ")") := by
  refine ⟨by decide, by decide, by decide, by decide, by decide, ?_,
    fun cs => by simp [listOutput],
    fun mdl i => rfl, fun mdl i => rfl, fun i => rfl,
    fun m i => by simp [cameraName, String.append_assoc],
    fun m i => by simp [cameraName, String.append_assoc],
    fun i => rfl, ?_⟩
  · by_cases h2 : o.camera = true ∧ env.sessionValid = false
    · unfold run
      rw [if_pos h2, if_pos hl]
      exact ⟨_, rfl⟩
    by_cases h3 : (o.listControls = true ∨ o.listProperties = true ∨
        o.info = true) ∧ o.camera = false
    · unfold run
      rw [if_neg h2, if_pos h3, if_pos hl]
      exact ⟨_, List.append_assoc _ _ _⟩
    by_cases h4 : o.capture = true ∧ o.camera = false
    · unfold run
      rw [if_neg h2, if_neg h3, if_pos h4, if_pos hl]
      simp only [List.append_assoc]
      exact ⟨_, rfl⟩
    by_cases h5 : o.capture = true ∧ ¬env.sessionStartRet = 0
    · unfold run
      rw [if_neg h2, if_neg h3, if_neg h4, if_pos h5, if_pos hl]
      simp only [List.append_assoc]
      exact ⟨_, rfl⟩
    · unfold run
      rw [if_neg h2, if_neg h3, if_neg h4, if_neg h5, if_pos hl]
      simp only [List.append_assoc]
      exact ⟨_, rfl⟩
  · intro cam
    obtain ⟨loc, mdl, i⟩ := cam
    cases loc with
    | none => cases mdl <;> exact ⟨_, rfl⟩
    | some l => cases l <;> cases mdl <;> exact ⟨_, rfl⟩

theorem C7_listing_witness :
    listOpts.list = true ∧
    (run listScenarioEnv listOpts []).output =
      [Output.line "Available cameras:",
       Output.line "1: 'SensorA' (cam0)",
       Output.line "2: Internal back camera (cam1)"] :=
  ⟨rfl, (C7_listing listScenarioEnv listOpts [] rfl).1⟩

end Cam

namespace Cam

/-- The monitor-only run reaches plan step 5 with the counter at 1 and
enters the loop. -/
theorem run_monitorOnly (env : RunEnv) (es : List Event) :
    run env monitorOpts es =
      { ret := 0,
        output := Output.line "Monitoring new hotplug and unplug events" ::
          Output.line "Press Ctrl-C to interrupt" ::
          (runLoop (initLoopState 1) es).2,
        loopUsers := 1, loopEntered := true,
        finalLoop := (runLoop (initLoopState 1) es).1,
        sessionStops := 0, captureConnected := false,
        hotplugConnected := true } := by
  unfold run
  norm_num [monitorOpts, noOpts]

/-- Claim C8: a device attach or detach notification leaves the loop state — in
particular the outstanding-operation counter and the exit flag — entirely
unchanged; hence a monitor-only run keeps the counter at 1 under any trace
of hotplug events, never exits on its own, and terminates (with `run`
returning 0 and process exit status 0) only once a SIGINT is delivered. -/
theorem C8_hotplug_passive (s : LoopState) (i j : String) (env : RunEnv)
    (em : MainEnv) (events : List Event)
    (hcd : countCD events = 0) (hsig : hasSigint events = false)
    (hv : em.valid = true) (hcm : em.cmStartRet = 0) :
    (stepEvent s (.cameraAdded i)).1 = s ∧
    (stepEvent s (.cameraRemoved j)).1 = s ∧
    (run env monitorOpts events).loopUsers = 1 ∧
    (run env monitorOpts events).loopEntered = true ∧
    (run env monitorOpts events).finalLoop.exited = false ∧
    (run env monitorOpts events).finalLoop.loopUsers = 1 ∧
    (run env monitorOpts (events ++ [Event.sigint])).finalLoop.exited =
      true ∧
    (run env monitorOpts (events ++ [Event.sigint])).ret = 0 ∧
    (mainFn em monitorOpts (events ++ [Event.sigint])).1 = 0 := by
  have hadd : (stepEvent s (.cameraAdded i)).1 = s := by
    by_cases hex : s.exited = true <;> simp [stepEvent, hex]
  have hrem : (stepEvent s (.cameraRemoved j)).1 = s := by
    by_cases hex : s.exited = true <;> simp [stepEvent, hex]
  have h1lt : (1 : Nat) < UINT_MOD := by rw [UINT_MOD_eq]; omega
  obtain ⟨e1, e2, _, _⟩ :=
    runLoop_chars events (initLoopState 1) rfl h1lt (by rw [hcd]; omega)
  have hnotex : (runLoop (initLoopState 1) events).1.exited = false := by
    cases hx : (runLoop (initLoopState 1) events).1.exited
    · rfl
    · exfalso
      rcases e1.mp hx with h | ⟨_, h⟩
      · rw [hsig] at h
        exact Bool.false_ne_true h
      · rw [hcd] at h
        exact absurd h.symm (by norm_num [initLoopState])
  have husers : (runLoop (initLoopState 1) events).1.loopUsers = 1 := by
    have := e2 hnotex
    rw [hcd] at this
    simpa [initLoopState] using this
  have hsigexit :
      (runLoop (initLoopState 1) (events ++ [Event.sigint])).1.exited =
        true := by
    apply runLoop_sigint_exits
    rw [hasSigint_append, hsig]
    rfl
  have hparse : parseOptions em.valid monitorOpts = (0, []) := by
    rw [hv]
    rfl
  have hinit :
      init { valid := em.valid, cmStartRet := em.cmStartRet } monitorOpts =
        (0, []) := by
    simp [init, hparse, hcm]
  refine ⟨hadd, hrem, ?_, ?_, ?_, ?_, ?_, ?_, ?_⟩
  · rw [run_monitorOnly]
  · rw [run_monitorOnly]
  · rw [run_monitorOnly]
    exact hnotex
  · rw [run_monitorOnly]
    exact husers
  · rw [run_monitorOnly]
    exact hsigexit
  · rw [run_monitorOnly]
  · simp only [mainFn, hinit, run_monitorOnly]
    norm_num

theorem C8_hotplug_passive_witness :
    countCD [Event.cameraAdded "x", Event.cameraRemoved "x"] = 0 ∧
    hasSigint [Event.cameraAdded "x", Event.cameraRemoved "x"] = false ∧
    sampleMainEnv.valid = true ∧ sampleMainEnv.cmStartRet = 0 ∧
    ((run sampleRunEnv monitorOpts
        [Event.cameraAdded "x", Event.cameraRemoved "x"]).finalLoop.exited =
      false ∧
     (run sampleRunEnv monitorOpts
        ([Event.cameraAdded "x", Event.cameraRemoved "x"] ++
          [Event.sigint])).finalLoop.exited = true) :=
  ⟨rfl, rfl, rfl, rfl,
   (C8_hotplug_passive (initLoopState 1) "x" "x" sampleRunEnv sampleMainEnv
      [Event.cameraAdded "x", Event.cameraRemoved "x"] rfl rfl rfl
      rfl).2.2.2.2.1,
   (C8_hotplug_passive (initLoopState 1) "x" "x" sampleRunEnv sampleMainEnv
      [Event.cameraAdded "x", Event.cameraRemoved "x"] rfl rfl rfl
      rfl).2.2.2.2.2.2.1⟩

end Cam
